import Mathlib

/-!
# Verification of the sparkEye stability-gated analysis state machine

Shallow embedding of `src/main.py` (class `ArduinoAssistant`): the per-tick
state machine of `run`, the reset key handler, the motion scorer
`get_motion_score`, and the threaded `analyze_image` completion path.

Modelling conventions:
* Wall-clock instants are natural numbers.  The source calls `time.time()`
  several times inside one loop iteration (lines 283, 302, 312, 341, 343,
  347, 355); these calls are microseconds apart and are modelled as a single
  per-tick instant `now`.  Time only ever enters through differences
  `now - earlier`, which are never negative at runtime, so truncated `Nat`
  subtraction is faithful.
* The background verification thread is modelled by two ghost counters on the
  session state: `inFlight` (threads started whose function body has not yet
  finished) and `launches` (total threads ever started).  Starting the thread
  (line 313-317) increments both; the completion of `analyze_image`
  (its writes to `feedback_data`, `quota_exhausted` and `state`) is a separate
  `deliverOutcome` step that decrements `inFlight`.
* The external world seen by one `analyze_image` call (network, Gemini
  response shape) is an element of `VerifierEnv`; whether `GEMINI_API_KEY`
  is configured is a boolean parameter.
-/

namespace SparkEye

/-- MOTION_THRESHOLD (src/main.py line 27): pixels that must change to count as motion. -/
def MOTION_THRESHOLD : Nat := 5000

/-- TIME_THRESHOLD (line 28): seconds of stillness required. -/
def TIME_THRESHOLD : Nat := 5

/-- MIN_AI_INTERVAL (line 30): minimum seconds between API calls. -/
def MIN_AI_INTERVAL : Nat := 15

/-- The 3.0-second success display window hard-coded at line 343. -/
def SUCCESS_DISPLAY : Nat := 3

/-- A configured assembly step (lines 33-44). -/
structure Step where
  id : Nat
  instruction : String
  expected : String
deriving DecidableEq, Repr

/-- STEPS (lines 33-44): the two configured steps. -/
def STEPS : List Step :=
  [ { id := 1,
      instruction := "Connect LED anode to Arduino pin 13 using a 220 resistor",
      expected := "LED with resistor connected to pin 13" },
    { id := 2,
      instruction := "Connect LED cathode to GND",
      expected := "LED cathode connected to GND" } ]

/-- The four values of `self.state` (line 59). -/
inductive Phase
  | MOVING
  | STEADY
  | ANALYZING
  | FEEDBACK
deriving DecidableEq, Repr

/-- A `feedback_data` dictionary: status string, optional confidence, feedback
text.  Every write site in the source fits this shape; a dictionary parsed
from the model response (line 157) is modelled as an arbitrary `Outcome`. -/
structure Outcome where
  status : String
  confidence : Option ℚ
  feedback : String
deriving DecidableEq, Repr

/-- The mutable fields of `ArduinoAssistant` that the state machine reads or
writes, plus the two ghost thread counters described in the file header.
`success_start = none` models the `success_start` attribute being absent
(`hasattr` false, lines 340-348). -/
structure SessionState where
  state : Phase
  current_step_idx : Nat
  last_motion_time : Nat
  last_ai_call : Nat
  steady_captured : Bool
  quota_exhausted : Bool
  feedback_data : Option Outcome
  success_start : Option Nat
  inFlight : Nat
  launches : Nat
deriving DecidableEq, Repr

/-- `__init__` (lines 54-65): `t0` is the `time.time()` stored into
`last_motion_time` at construction; `last_ai_call` starts at 0. -/
def initState (t0 : Nat) : SessionState :=
  { state := Phase.MOVING
    current_step_idx := 0
    last_motion_time := t0
    last_ai_call := 0
    steady_captured := false
    quota_exhausted := false
    feedback_data := none
    success_start := none
    inFlight := 0
    launches := 0 }

/-- The MOVING branch of the tick state machine (lines 285-292). -/
def movingStep (motion now : Nat) (s : SessionState) : SessionState :=
  if motion < MOTION_THRESHOLD then
    if TIME_THRESHOLD < now - s.last_motion_time then
      { s with state := Phase.STEADY, steady_captured := false }
    else s
  else { s with last_motion_time := now }

/-- The guard chain of the STEADY branch (lines 294-320): quota hold, already
captured hold, cooldown hold, else capture — launching one thread when steps
remain (ghost counters bumped) or posting the Complete! outcome otherwise. -/
def steadyBody (now : Nat) (s : SessionState) : SessionState :=
  if s.quota_exhausted = true then s
  else if s.steady_captured = true then s
  else if now - s.last_ai_call < MIN_AI_INTERVAL then s
  else if s.current_step_idx < STEPS.length then
    { s with steady_captured := true
             state := Phase.ANALYZING
             last_ai_call := now
             inFlight := s.inFlight + 1
             launches := s.launches + 1 }
  else
    { s with steady_captured := true
             state := Phase.FEEDBACK
             feedback_data := some { status := "correct", confidence := none, feedback := "Complete!" } }

/-- The full STEADY branch (lines 294-325): the guard chain, then the
motion-resumes check of lines 322-325, which reads the possibly-updated
`steady_captured`. -/
def steadyStep (motion now : Nat) (s : SessionState) : SessionState :=
  let s1 := steadyBody now s
  if MOTION_THRESHOLD < motion ∧ s1.steady_captured = false then
    { s1 with state := Phase.MOVING, last_motion_time := now }
  else s1

/-- The FEEDBACK branch (lines 331-355): on a correct outcome, start the
success timer if absent and auto-advance once more than 3 seconds have
elapsed (deleting the timer); on incorrect/partial/error, return to MOVING
when motion resumes, keeping the outcome visible; any other status holds. -/
def feedbackStep (motion now : Nat) (s : SessionState) : SessionState :=
  match s.feedback_data with
  | none => s
  | some fd =>
    if fd.status = "correct" then
      let start := s.success_start.getD now
      if SUCCESS_DISPLAY < now - start then
        { s with current_step_idx := s.current_step_idx + 1
                 state := Phase.MOVING
                 feedback_data := none
                 last_motion_time := now
                 success_start := none }
      else { s with success_start := some start }
    else if fd.status = "incorrect" ∨ fd.status = "partial" ∨ fd.status = "error" then
      if MOTION_THRESHOLD < motion then
        { s with state := Phase.MOVING, last_motion_time := now }
      else s
    else s

/-- One iteration of the state machine in `run` (lines 282-355), given the
motion score of the current frame and the tick instant. -/
def tick (motion now : Nat) (s : SessionState) : SessionState :=
  match s.state with
  | Phase.MOVING => movingStep motion now s
  | Phase.STEADY => steadyStep motion now s
  | Phase.ANALYZING => s
  | Phase.FEEDBACK => feedbackStep motion now s

/-- The `'r'` key handler (lines 365-370): back to MOVING, clear
`feedback_data`, restamp `last_motion_time`.  Note that it touches nothing
else: `steady_captured`, `quota_exhausted`, `last_ai_call`, `success_start`
and the running thread are all left as they were. -/
def resetCmd (now : Nat) (s : SessionState) : SessionState :=
  { s with state := Phase.MOVING
           feedback_data := none
           last_motion_time := now }

/-- The behaviour of the external world during one `analyze_image` call. -/
inductive VerifierEnv
  /-- `cv2.imencode` returns success = False (lines 101-106). -/
  | encodeFail
  /-- `generate_content` raises `exceptions.ResourceExhausted` (lines 135-143). -/
  | quotaExhausted
  /-- `generate_content` raises any other exception, re-raised at line 146 and
  caught by the outer handler at line 173. -/
  | apiException (msg : String)
  /-- the response object is falsy, raising at line 149, caught at line 173. -/
  | noResponse
  /-- a JSON-looking substring is found in the response text and parses; the
  parsed dictionary is modelled as an `Outcome` (lines 153-158). -/
  | parsedJson (o : Outcome)
  /-- a JSON-looking substring is found but `json.loads` fails (lines 159-165). -/
  | jsonDecodeError
  /-- no JSON object at all in the response text (lines 166-171). -/
  | noJsonFound
deriving DecidableEq, Repr

/-- The body of `ArduinoAssistant.analyze_image` (lines 90-181) as a function
of whether `GEMINI_API_KEY` is configured and the world's behaviour during
the call.  Returns the `feedback_data` the thread writes together with the
value it writes to `quota_exhausted` (true only on ResourceExhausted).  When
no API key is configured the source sleeps two seconds and returns the
simulated success before touching any of the API machinery (lines 93-98),
so the `VerifierEnv` is ignored in that case. -/
def analyze_image (hasApiKey : Bool) (env : VerifierEnv) : Outcome × Bool :=
  if hasApiKey = false then
    ({ status := "correct", confidence := some 1, feedback := "Simulated Success (No API Key)" }, false)
  else
    match env with
    | VerifierEnv.encodeFail =>
      ({ status := "error", confidence := none, feedback := "Camera error" }, false)
    | VerifierEnv.quotaExhausted =>
      ({ status := "error", confidence := none, feedback := "Daily quota exhausted. Try tomorrow." }, true)
    | VerifierEnv.apiException msg =>
      ({ status := "error", confidence := some 0, feedback := "AI Error: " ++ msg }, false)
    | VerifierEnv.noResponse =>
      ({ status := "error", confidence := some 0, feedback := "AI Error: Failed to get response from AI" }, false)
    | VerifierEnv.parsedJson o => (o, false)
    | VerifierEnv.jsonDecodeError =>
      ({ status := "partial", confidence := some 0, feedback := "Could not understand AI response. Try again." }, false)
    | VerifierEnv.noJsonFound =>
      ({ status := "error", confidence := none, feedback := "Invalid AI response format." }, false)

/-- The non-quota failure modes of one verification attempt: everything in
`VerifierEnv` except quota exhaustion and a successfully parsed response. -/
def isNonQuotaFailure : VerifierEnv → Bool
  | VerifierEnv.encodeFail => true
  | VerifierEnv.apiException _ => true
  | VerifierEnv.noResponse => true
  | VerifierEnv.jsonDecodeError => true
  | VerifierEnv.noJsonFound => true
  | VerifierEnv.quotaExhausted => false
  | VerifierEnv.parsedJson _ => false

/-- Completion of one `analyze_image` thread: its writes become visible to the
session.  Every return path of the source ends in `self.state = "FEEDBACK"`
(lines 97, 105, 142, 181), after writing `feedback_data` and, on quota
exhaustion only, `quota_exhausted = True`.  The ghost `inFlight` counter is
decremented. -/
def deliverOutcome (hasApiKey : Bool) (env : VerifierEnv) (s : SessionState) : SessionState :=
  { s with feedback_data := some (analyze_image hasApiKey env).1
           quota_exhausted := s.quota_exhausted || (analyze_image hasApiKey env).2
           state := Phase.FEEDBACK
           inFlight := s.inFlight - 1 }

/-- The three kinds of externally-driven session step: a tick of the main
loop, the reset key, and the completion of a launched verification thread. -/
inductive Ev
  | tick (motion now : Nat)
  | reset (now : Nat)
  | deliver (env : VerifierEnv)
deriving DecidableEq, Repr

/-- Apply one step.  A `deliver` step can only have an effect when a thread
is actually in flight. -/
def applyEv (hasApiKey : Bool) (e : Ev) (s : SessionState) : SessionState :=
  match e with
  | Ev.tick m t => tick m t s
  | Ev.reset t => resetCmd t s
  | Ev.deliver env => if s.inFlight = 0 then s else deliverOutcome hasApiKey env s

/-- Run a whole sequence of steps. -/
def runEvs (hasApiKey : Bool) (evs : List Ev) (s : SessionState) : SessionState :=
  evs.foldl (fun u e => applyEv hasApiKey e u) s

/-- Reachable session states: any interleaving of ticks, reset commands and
thread completions, starting from a fresh session. -/
inductive Reach (hasApiKey : Bool) : SessionState → Prop
  | init (t0 : Nat) : Reach hasApiKey (initState t0)
  | tick {s : SessionState} (m t : Nat) :
      Reach hasApiKey s → Reach hasApiKey (tick m t s)
  | reset {s : SessionState} (t : Nat) :
      Reach hasApiKey s → Reach hasApiKey (resetCmd t s)
  | deliver {s : SessionState} (env : VerifierEnv) :
      Reach hasApiKey s → s.inFlight ≠ 0 → Reach hasApiKey (deliverOutcome hasApiKey env s)

/-- Reachability when the operator never presses reset while a verification
thread is still in flight. -/
inductive ReachNR (hasApiKey : Bool) : SessionState → Prop
  | init (t0 : Nat) : ReachNR hasApiKey (initState t0)
  | tick {s : SessionState} (m t : Nat) :
      ReachNR hasApiKey s → ReachNR hasApiKey (tick m t s)
  | reset {s : SessionState} (t : Nat) :
      ReachNR hasApiKey s → s.inFlight = 0 → ReachNR hasApiKey (resetCmd t s)
  | deliver {s : SessionState} (env : VerifierEnv) :
      ReachNR hasApiKey s → s.inFlight ≠ 0 → ReachNR hasApiKey (deliverOutcome hasApiKey env s)

/-- `cv2.cvtColor` followed by `cv2.GaussianBlur` (src/main.py lines 76-77).
OpenCV raises `cv2.error` on an empty or malformed input array — there is no
silent zero-result path.  Frames are modelled as flat grayscale pixel lists;
the smoothing kernel is irrelevant to every claim and is modelled as the
identity on the pixel list. -/
def cvtColor_blur (frame : List Nat) : Except String (List Nat) :=
  if frame.isEmpty then Except.error "cv2.error: empty frame" else Except.ok frame

/-- `cv2.absdiff`, binary threshold at intensity 25, then `np.sum(thresh)/255`
(lines 83-85): the number of pixels whose absolute difference from the
reference exceeds 25. -/
def frameDeltaThresh (prev cur : List Nat) : Nat :=
  (List.zipWith (fun a b => if 25 < max a b - min a b then 1 else 0) prev cur).sum

/-- `ArduinoAssistant.get_motion_score` (lines 75-88): convert and smooth the
frame (raising on malformed input), return the sentinel 100000 on the first
call, else the thresholded difference count; always update the reference. -/
def get_motion_score (frame : List Nat) (prev : Option (List Nat)) :
    Except String (Nat × List Nat) :=
  match cvtColor_blur frame with
  | Except.error e => Except.error e
  | Except.ok gray =>
    match prev with
    | none => Except.ok (100000, gray)
    | some p => Except.ok (frameDeltaThresh p gray, gray)

/-- What `self.cap.read()` produced for this iteration. -/
inductive FrameInput
  /-- `ret == False` (end of stream). -/
  | endOfStream
  /-- a frame was grabbed. -/
  | frame (f : List Nat)
deriving DecidableEq, Repr

/-- The fate of one iteration of the `while True` loop in `run`. -/
inductive TickOutcome
  /-- line 273: `break` — the session ends gracefully. -/
  | sessionEnded
  /-- an exception escaped the loop body: `run` has no handler, so the loop
  terminates and the error reaches the top-level handler of line 379. -/
  | fatal (msg : String)
  /-- the loop continues with the updated reference frame and session state. -/
  | next (prev : Option (List Nat)) (s : SessionState)
deriving DecidableEq, Repr

/-- One iteration of the `run` loop (lines 269-355) up to the state machine:
grab a frame, bail out of the loop on end of stream, score motion (an
exception here propagates — nothing in the loop catches it), then run the
tick state machine. -/
def runIteration (prev : Option (List Nat)) (s : SessionState)
    (input : FrameInput) (now : Nat) : TickOutcome :=
  match input with
  | FrameInput.endOfStream => TickOutcome.sessionEnded
  | FrameInput.frame f =>
    match get_motion_score f prev with
    | Except.error e => TickOutcome.fatal e
    | Except.ok (m, newPrev) => TickOutcome.next (some newPrev) (tick m now s)

/-! ## Concrete executions used as counterexamples and demonstrations -/

/-- A parsed model response reporting a correct circuit. -/
def cOk : Outcome := { status := "correct", confidence := some 1, feedback := "ok" }

/-- After a tick at t = 6 with no motion: STEADY. -/
def s6 : SessionState := tick 0 6 (initState 0)

/-- After a tick at t = 20: the first verification thread is launched. -/
def sA : SessionState := tick 0 20 s6

/-- Reset pressed at t = 22 while phase is ANALYZING and the thread of `sA`
is still in flight. -/
def sRst : SessionState := resetCmd 22 sA

/-- Stillness re-establishes STEADY at t = 28, and at t = 40 the cooldown has
elapsed: a second thread is launched while the first is still in flight. -/
def sD2 : SessionState := tick 0 40 (tick 0 28 sRst)

/-- The first thread of `sA` delivers a correct outcome. -/
def sFb1 : SessionState := deliverOutcome true (VerifierEnv.parsedJson cOk) sA

/-- First FEEDBACK tick at t = 21: the success timer starts. -/
def sFb1t : SessionState := tick 0 21 sFb1

/-- Reset pressed at t = 22, during the success display: `success_start`
survives at 21. -/
def sRst2 : SessionState := resetCmd 22 sFb1t

/-- STEADY again at t = 28; a new thread is launched at t = 40. -/
def sA2 : SessionState := tick 0 40 (tick 0 28 sRst2)

/-- The new thread delivers a correct outcome while the stale success timer
from t = 21 is still set. -/
def sFb2 : SessionState := deliverOutcome true (VerifierEnv.parsedJson cOk) sA2

/-- Normal success path after `sFb1`: timer tick at 21, advance at 25. -/
def sStep1 : SessionState := tick 0 25 (tick 0 21 sFb1)

/-- STEADY at 31, second launch at 40. -/
def sA3 : SessionState := tick 0 40 (tick 0 31 sStep1)

/-- Second correct outcome; timer tick at 41; advance at 45: both steps done. -/
def sStep2 : SessionState :=
  tick 0 45 (tick 0 41 (deliverOutcome true (VerifierEnv.parsedJson cOk) sA3))

/-- STEADY at t = 51 with every configured step complete. -/
def sSteadyDone : SessionState := tick 0 51 sStep2

/-- The tick at t = 60 consumes the steady event with no steps remaining:
`steady_captured` is set with no thread launched, and the Complete! outcome
is posted. -/
def sComplete : SessionState := tick 0 60 sSteadyDone

/-- The Complete! outcome is itself a correct-status outcome, so the success
path runs again and pushes `current_step_idx` past the number of steps. -/
def sBeyond : SessionState := tick 0 65 (tick 0 61 sComplete)

/-- The session state after the quota-exhausted failure of the thread of `sA`. -/
def sQ : SessionState := deliverOutcome true VerifierEnv.quotaExhausted sA

/-! ## Helper lemmas about the individual step functions -/

lemma movingStep_fields (m t : Nat) (s : SessionState) :
    (movingStep m t s).launches = s.launches ∧
    (movingStep m t s).inFlight = s.inFlight ∧
    (movingStep m t s).last_ai_call = s.last_ai_call ∧
    (movingStep m t s).quota_exhausted = s.quota_exhausted ∧
    (movingStep m t s).current_step_idx = s.current_step_idx ∧
    (movingStep m t s).feedback_data = s.feedback_data := by
  unfold movingStep; split_ifs <;> exact ⟨rfl, rfl, rfl, rfl, rfl, rfl⟩

lemma movingStep_captured (m t : Nat) (s : SessionState) :
    (movingStep m t s).steady_captured = false ∨
      ((movingStep m t s).steady_captured = s.steady_captured ∧
       (movingStep m t s).state = s.state) := by
  unfold movingStep; split_ifs
  · exact Or.inl rfl
  · exact Or.inr ⟨rfl, rfl⟩
  · exact Or.inr ⟨rfl, rfl⟩

lemma movingStep_state (m t : Nat) (s : SessionState) :
    (movingStep m t s).state = s.state ∨
      ((movingStep m t s).state = Phase.STEADY ∧
       (movingStep m t s).steady_captured = false) := by
  unfold movingStep; split_ifs
  · exact Or.inr ⟨rfl, rfl⟩
  · exact Or.inl rfl
  · exact Or.inl rfl

lemma feedbackStep_fields (m t : Nat) (s : SessionState) :
    (feedbackStep m t s).launches = s.launches ∧
    (feedbackStep m t s).inFlight = s.inFlight ∧
    (feedbackStep m t s).last_ai_call = s.last_ai_call ∧
    (feedbackStep m t s).quota_exhausted = s.quota_exhausted ∧
    (feedbackStep m t s).steady_captured = s.steady_captured ∧
    s.current_step_idx ≤ (feedbackStep m t s).current_step_idx := by
  unfold feedbackStep
  cases h : s.feedback_data with
  | none => exact ⟨rfl, rfl, rfl, rfl, rfl, le_refl _⟩
  | some fd =>
    simp only []
    split_ifs <;>
      first
        | exact ⟨rfl, rfl, rfl, rfl, rfl, Nat.le_succ _⟩
        | exact ⟨rfl, rfl, rfl, rfl, rfl, le_refl _⟩

lemma feedbackStep_state (m t : Nat) (s : SessionState) :
    (feedbackStep m t s).state = s.state ∨ (feedbackStep m t s).state = Phase.MOVING := by
  unfold feedbackStep
  cases h : s.feedback_data with
  | none => exact Or.inl rfl
  | some fd =>
    simp only []
    split_ifs <;> first | exact Or.inl rfl | exact Or.inr rfl

lemma steadyBody_cases (t : Nat) (s : SessionState) :
    steadyBody t s = s ∨
    (s.quota_exhausted = false ∧ s.steady_captured = false ∧
     ¬ t - s.last_ai_call < MIN_AI_INTERVAL ∧
     ((s.current_step_idx < STEPS.length ∧
       steadyBody t s =
         { s with steady_captured := true
                  state := Phase.ANALYZING
                  last_ai_call := t
                  inFlight := s.inFlight + 1
                  launches := s.launches + 1 }) ∨
      (¬ s.current_step_idx < STEPS.length ∧
       steadyBody t s =
         { s with steady_captured := true
                  state := Phase.FEEDBACK
                  feedback_data :=
                    some { status := "correct", confidence := none, feedback := "Complete!" } }))) := by
  unfold steadyBody
  split_ifs with h1 h2 h3 h4
  · exact Or.inl rfl
  · exact Or.inl rfl
  · exact Or.inl rfl
  · exact Or.inr ⟨by simpa using h1, by simpa using h2, h3, Or.inl ⟨h4, rfl⟩⟩
  · exact Or.inr ⟨by simpa using h1, by simpa using h2, h3, Or.inr ⟨h4, rfl⟩⟩

lemma steadyStep_of_body_eq (m t : Nat) (s : SessionState) (h : steadyBody t s = s) :
    steadyStep m t s = s ∨
      (steadyStep m t s = { s with state := Phase.MOVING, last_motion_time := t } ∧
       s.steady_captured = false ∧ MOTION_THRESHOLD < m) := by
  unfold steadyStep
  rw [h]
  dsimp only []
  split_ifs with hc
  · exact Or.inr ⟨rfl, hc.2, hc.1⟩
  · exact Or.inl rfl

lemma steadyStep_quota (m t : Nat) (s : SessionState) :
    (steadyStep m t s).quota_exhausted = s.quota_exhausted := by
  unfold steadyStep steadyBody; dsimp only []; split_ifs <;> rfl

lemma steadyStep_idx (m t : Nat) (s : SessionState) :
    (steadyStep m t s).current_step_idx = s.current_step_idx := by
  unfold steadyStep steadyBody; dsimp only []; split_ifs <;> rfl

lemma tick_moving (m t : Nat) (s : SessionState) (h : s.state = Phase.MOVING) :
    tick m t s = movingStep m t s := by
  unfold tick; rw [h]

lemma tick_steady (m t : Nat) (s : SessionState) (h : s.state = Phase.STEADY) :
    tick m t s = steadyStep m t s := by
  unfold tick; rw [h]

lemma tick_analyzing (m t : Nat) (s : SessionState) (h : s.state = Phase.ANALYZING) :
    tick m t s = s := by
  unfold tick; rw [h]

lemma tick_feedback (m t : Nat) (s : SessionState) (h : s.state = Phase.FEEDBACK) :
    tick m t s = feedbackStep m t s := by
  unfold tick; rw [h]

/-- A launching tick, characterized: the ghost launch counter changes only in
the STEADY capture branch with steps remaining, whose guards and effect are
exactly those of src/main.py lines 305-317. -/
lemma tick_launch_char (m t : Nat) (s : SessionState)
    (h : (tick m t s).launches ≠ s.launches) :
    s.state = Phase.STEADY ∧ s.quota_exhausted = false ∧ s.steady_captured = false ∧
    ¬ t - s.last_ai_call < MIN_AI_INTERVAL ∧ s.current_step_idx < STEPS.length ∧
    tick m t s =
      { s with steady_captured := true
               state := Phase.ANALYZING
               last_ai_call := t
               inFlight := s.inFlight + 1
               launches := s.launches + 1 } := by
  cases hs : s.state with
  | MOVING =>
    rw [tick_moving m t s hs, (movingStep_fields m t s).1] at h
    exact absurd rfl h
  | ANALYZING =>
    rw [tick_analyzing m t s hs] at h
    exact absurd rfl h
  | FEEDBACK =>
    rw [tick_feedback m t s hs, (feedbackStep_fields m t s).1] at h
    exact absurd rfl h
  | STEADY =>
    rw [tick_steady m t s hs] at h ⊢
    rcases steadyBody_cases t s with hb | ⟨hq, hc, hcool, hbr⟩
    · rcases steadyStep_of_body_eq m t s hb with he | ⟨he, -, -⟩ <;> rw [he] at h <;>
        exact absurd rfl h
    · rcases hbr with ⟨hlt, hb⟩ | ⟨hge, hb⟩
      · refine ⟨rfl, hq, hc, hcool, hlt, ?_⟩
        unfold steadyStep
        rw [hb]
        dsimp only []
        rw [if_neg]
        simp
      · unfold steadyStep at h
        rw [hb] at h
        dsimp only [] at h
        rw [if_neg] at h
        · exact absurd rfl h
        · simp

/-- Ticks never change the quota lock. -/
lemma tick_quota (m t : Nat) (s : SessionState) :
    (tick m t s).quota_exhausted = s.quota_exhausted := by
  cases hs : s.state with
  | MOVING => rw [tick_moving m t s hs]; exact (movingStep_fields m t s).2.2.2.1
  | STEADY => rw [tick_steady m t s hs]; exact steadyStep_quota m t s
  | ANALYZING => rw [tick_analyzing m t s hs]
  | FEEDBACK => rw [tick_feedback m t s hs]; exact (feedbackStep_fields m t s).2.2.2.1

/-- Ticks never decrease the step index. -/
lemma tick_idx_mono (m t : Nat) (s : SessionState) :
    s.current_step_idx ≤ (tick m t s).current_step_idx := by
  cases hs : s.state with
  | MOVING => rw [tick_moving m t s hs, (movingStep_fields m t s).2.2.2.2.1]
  | STEADY => rw [tick_steady m t s hs, steadyStep_idx m t s]
  | ANALYZING => rw [tick_analyzing m t s hs]
  | FEEDBACK => rw [tick_feedback m t s hs]; exact (feedbackStep_fields m t s).2.2.2.2.2

/-- If a tick holds the quota lock, it launches nothing. -/
lemma tick_launches_of_quota (m t : Nat) (s : SessionState)
    (h : s.quota_exhausted = true) : (tick m t s).launches = s.launches := by
  by_contra hne
  rcases tick_launch_char m t s hne with ⟨_, hq, _⟩
  rw [h] at hq
  exact Bool.noConfusion hq

lemma reset_fields (t : Nat) (s : SessionState) :
    (resetCmd t s).state = Phase.MOVING ∧
    (resetCmd t s).feedback_data = none ∧
    (resetCmd t s).last_motion_time = t ∧
    (resetCmd t s).steady_captured = s.steady_captured ∧
    (resetCmd t s).quota_exhausted = s.quota_exhausted ∧
    (resetCmd t s).current_step_idx = s.current_step_idx ∧
    (resetCmd t s).last_ai_call = s.last_ai_call ∧
    (resetCmd t s).inFlight = s.inFlight ∧
    (resetCmd t s).launches = s.launches ∧
    (resetCmd t s).success_start = s.success_start := by
  unfold resetCmd
  exact ⟨rfl, rfl, rfl, rfl, rfl, rfl, rfl, rfl, rfl, rfl⟩

lemma deliver_fields (hk : Bool) (env : VerifierEnv) (s : SessionState) :
    (deliverOutcome hk env s).launches = s.launches ∧
    (deliverOutcome hk env s).last_ai_call = s.last_ai_call ∧
    (deliverOutcome hk env s).steady_captured = s.steady_captured ∧
    (deliverOutcome hk env s).current_step_idx = s.current_step_idx ∧
    (deliverOutcome hk env s).state = Phase.FEEDBACK ∧
    (deliverOutcome hk env s).inFlight = s.inFlight - 1 ∧
    (deliverOutcome hk env s).success_start = s.success_start ∧
    (deliverOutcome hk env s).feedback_data = some (analyze_image hk env).1 ∧
    (deliverOutcome hk env s).quota_exhausted = (s.quota_exhausted || (analyze_image hk env).2) := by
  unfold deliverOutcome
  exact ⟨rfl, rfl, rfl, rfl, rfl, rfl, rfl, rfl, rfl⟩

lemma steadyStep_eq_body_of_captured (m t : Nat) (s : SessionState)
    (h : (steadyBody t s).steady_captured = true) :
    steadyStep m t s = steadyBody t s := by
  unfold steadyStep
  dsimp only []
  rw [if_neg]
  intro hc
  rw [h] at hc
  exact Bool.noConfusion hc.2

/-- One tick preserves the key single-flight invariant: never more than one
thread in flight, and a thread in flight means the phase is ANALYZING. -/
lemma tick_inv (m t : Nat) (s : SessionState)
    (h1 : s.inFlight ≤ 1) (h2 : s.inFlight = 1 → s.state = Phase.ANALYZING) :
    (tick m t s).inFlight ≤ 1 ∧
      ((tick m t s).inFlight = 1 → (tick m t s).state = Phase.ANALYZING) := by
  cases hs : s.state with
  | MOVING =>
    have h0 : s.inFlight = 0 := by
      have hne : s.inFlight ≠ 1 := by
        intro h
        rw [h2 h] at hs
        exact Phase.noConfusion hs
      omega
    rw [tick_moving m t s hs]
    constructor
    · rw [(movingStep_fields m t s).2.1]; exact h1
    · intro hone
      rw [(movingStep_fields m t s).2.1, h0] at hone
      exact absurd hone (by decide)
  | ANALYZING =>
    rw [tick_analyzing m t s hs]
    exact ⟨h1, fun _ => hs⟩
  | FEEDBACK =>
    have h0 : s.inFlight = 0 := by
      have hne : s.inFlight ≠ 1 := by
        intro h
        rw [h2 h] at hs
        exact Phase.noConfusion hs
      omega
    rw [tick_feedback m t s hs]
    constructor
    · rw [(feedbackStep_fields m t s).2.1]; exact h1
    · intro hone
      rw [(feedbackStep_fields m t s).2.1, h0] at hone
      exact absurd hone (by decide)
  | STEADY =>
    have h0 : s.inFlight = 0 := by
      have hne : s.inFlight ≠ 1 := by
        intro h
        rw [h2 h] at hs
        exact Phase.noConfusion hs
      omega
    rw [tick_steady m t s hs]
    rcases steadyBody_cases t s with hb | ⟨hq, hc, hcool, hbr⟩
    · rcases steadyStep_of_body_eq m t s hb with he | ⟨he, -, -⟩ <;>
        rw [he] <;> try dsimp only []
      all_goals exact ⟨by omega, fun hone => absurd hone (by omega)⟩
    · rcases hbr with ⟨hlt, hb⟩ | ⟨hge, hb⟩
      · rw [steadyStep_eq_body_of_captured m t s (by rw [hb]), hb]
        dsimp only []
        exact ⟨by omega, fun _ => rfl⟩
      · rw [steadyStep_eq_body_of_captured m t s (by rw [hb]), hb]
        dsimp only []
        exact ⟨by omega, fun hone => absurd hone (by omega)⟩

lemma movingStep_cases (m t : Nat) (s : SessionState) :
    movingStep m t s = { s with state := Phase.STEADY, steady_captured := false } ∨
    movingStep m t s = s ∨ movingStep m t s = { s with last_motion_time := t } := by
  unfold movingStep
  split_ifs
  · exact Or.inl rfl
  · exact Or.inr (Or.inl rfl)
  · exact Or.inr (Or.inr rfl)

lemma feedbackStep_cases (m t : Nat) (s : SessionState) :
    feedbackStep m t s = s ∨
    (∃ st, feedbackStep m t s = { s with success_start := some st }) ∨
    feedbackStep m t s = { s with state := Phase.MOVING, last_motion_time := t } ∨
    feedbackStep m t s =
      { s with current_step_idx := s.current_step_idx + 1
               state := Phase.MOVING
               feedback_data := none
               last_motion_time := t
               success_start := none } := by
  unfold feedbackStep
  cases h : s.feedback_data with
  | none => exact Or.inl rfl
  | some fd =>
    dsimp only []
    split_ifs
    · exact Or.inr (Or.inr (Or.inr rfl))
    · exact Or.inr (Or.inl ⟨_, rfl⟩)
    · exact Or.inr (Or.inr (Or.inl rfl))
    · exact Or.inl rfl
    · exact Or.inl rfl

/-- The single-flight invariant holds in every state reachable without a
reset during an in-flight verification. -/
lemma reachNR_single_flight {hk : Bool} {s : SessionState} (h : ReachNR hk s) :
    s.inFlight ≤ 1 ∧ (s.inFlight = 1 → s.state = Phase.ANALYZING) := by
  induction h with
  | init t0 =>
    exact ⟨Nat.zero_le 1, fun hone => by simp [initState] at hone⟩
  | tick m t hr ih => exact tick_inv m t _ ih.1 ih.2
  | reset t hr hin ih =>
    constructor
    · rw [(reset_fields t _).2.2.2.2.2.2.2.1, hin]; omega
    · intro hone
      rw [(reset_fields t _).2.2.2.2.2.2.2.1, hin] at hone
      exact absurd hone (by decide)
  | deliver env hr hne ih =>
    constructor
    · rw [(deliver_fields hk env _).2.2.2.2.2.1]; omega
    · intro hone
      rw [(deliver_fields hk env _).2.2.2.2.2.1] at hone
      have := ih.1
      omega

/-! ## Reachability of the concrete trace states -/

lemma reach_s6 : Reach true s6 := Reach.tick 0 6 (Reach.init 0)

lemma reach_sA : Reach true sA := Reach.tick 0 20 reach_s6

lemma reach_sRst : Reach true sRst := Reach.reset 22 reach_sA

lemma reach_sD2 : Reach true sD2 := Reach.tick 0 40 (Reach.tick 0 28 reach_sRst)

lemma reach_sFb1 : Reach true sFb1 :=
  Reach.deliver (VerifierEnv.parsedJson cOk) reach_sA (by decide)

lemma reach_sFb1t : Reach true sFb1t := Reach.tick 0 21 reach_sFb1

lemma reach_sRst2 : Reach true sRst2 := Reach.reset 22 reach_sFb1t

lemma reach_sA2 : Reach true sA2 := Reach.tick 0 40 (Reach.tick 0 28 reach_sRst2)

lemma reach_sFb2 : Reach true sFb2 :=
  Reach.deliver (VerifierEnv.parsedJson cOk) reach_sA2 (by decide)

lemma reach_sStep1 : Reach true sStep1 := Reach.tick 0 25 (Reach.tick 0 21 reach_sFb1)

lemma reach_sA3 : Reach true sA3 := Reach.tick 0 40 (Reach.tick 0 31 reach_sStep1)

lemma reach_sStep2 : Reach true sStep2 :=
  Reach.tick 0 45 (Reach.tick 0 41
    (Reach.deliver (VerifierEnv.parsedJson cOk) reach_sA3 (by decide)))

lemma reach_sSteadyDone : Reach true sSteadyDone := Reach.tick 0 51 reach_sStep2

lemma reach_sComplete : Reach true sComplete := Reach.tick 0 60 reach_sSteadyDone

lemma reach_sBeyond : Reach true sBeyond :=
  Reach.tick 0 65 (Reach.tick 0 61 reach_sComplete)

lemma reach_sQ : Reach true sQ :=
  Reach.deliver VerifierEnv.quotaExhausted reach_sA (by decide)

lemma reach_sJson : Reach true (deliverOutcome true VerifierEnv.jsonDecodeError sA) :=
  Reach.deliver VerifierEnv.jsonDecodeError reach_sA (by decide)

/-! ## Cooldown helpers -/

lemma steadyBody_of_cooldown (t : Nat) (s : SessionState)
    (h : t - s.last_ai_call < MIN_AI_INTERVAL) : steadyBody t s = s := by
  unfold steadyBody
  split_ifs <;> rfl

/-- During the cooldown window a STEADY tick changes none of the launch
bookkeeping, and if the frame is still below the motion threshold the whole
state is unchanged. -/
lemma tick_cooldown_hold (m t : Nat) (s : SessionState)
    (hs : s.state = Phase.STEADY) (h : t - s.last_ai_call < MIN_AI_INTERVAL) :
    (tick m t s).launches = s.launches ∧ (tick m t s).inFlight = s.inFlight ∧
    (tick m t s).last_ai_call = s.last_ai_call ∧
    (m ≤ MOTION_THRESHOLD → tick m t s = s) := by
  rw [tick_steady m t s hs]
  have hb := steadyBody_of_cooldown t s h
  rcases steadyStep_of_body_eq m t s hb with he | ⟨he, -, hmot⟩
  · rw [he]
    exact ⟨rfl, rfl, rfl, fun _ => rfl⟩
  · rw [he]
    exact ⟨rfl, rfl, rfl, fun hm => absurd hmot (by omega)⟩

/-- A tick that does not launch leaves `last_ai_call` unchanged. -/
lemma tick_la_unchanged (m t : Nat) (s : SessionState)
    (h : (tick m t s).launches = s.launches) :
    (tick m t s).last_ai_call = s.last_ai_call := by
  cases hs : s.state with
  | MOVING => rw [tick_moving m t s hs]; exact (movingStep_fields m t s).2.2.1
  | ANALYZING => rw [tick_analyzing m t s hs]
  | FEEDBACK => rw [tick_feedback m t s hs]; exact (feedbackStep_fields m t s).2.2.1
  | STEADY =>
    rw [tick_steady m t s hs] at h ⊢
    rcases steadyBody_cases t s with hb | ⟨hq, hc, hcool, hbr⟩
    · rcases steadyStep_of_body_eq m t s hb with he | ⟨he, -, -⟩ <;> rw [he]
    · rcases hbr with ⟨hlt, hb⟩ | ⟨hge, hb⟩
      · rw [steadyStep_eq_body_of_captured m t s (by rw [hb]), hb] at h
        dsimp only [] at h
        omega
      · rw [steadyStep_eq_body_of_captured m t s (by rw [hb]), hb]

/-! ## Re-launch eligibility after a non-fatal failure -/

/-- From a FEEDBACK state holding a non-correct outcome, with the quota
unlocked and steps remaining: a motion tick, a stillness tick six seconds
later, and a tick once the cooldown has elapsed launch a fresh verification
thread. -/
lemma relaunch_after_error (s : SessionState) (o : Outcome)
    (hnc : ¬ o.status = "correct")
    (hst : o.status = "incorrect" ∨ o.status = "partial" ∨ o.status = "error")
    (hq : s.quota_exhausted = false) (hidx : s.current_step_idx < STEPS.length)
    (hph : s.state = Phase.FEEDBACK) (hfd : s.feedback_data = some o) :
    (tick 0 (s.last_ai_call + MIN_AI_INTERVAL) (tick 0 6 (tick 5001 0 s))).launches
      = s.launches + 1 := by
  have e1 : tick 5001 0 s = { s with state := Phase.MOVING, last_motion_time := 0 } := by
    rw [tick_feedback 5001 0 s hph]
    unfold feedbackStep
    rw [hfd]
    dsimp only []
    rw [if_neg hnc, if_pos hst, if_pos (by norm_num [MOTION_THRESHOLD])]
  rw [e1]
  have e2 : tick 0 6 ({ s with state := Phase.MOVING, last_motion_time := 0 }) =
      { s with state := Phase.STEADY, steady_captured := false, last_motion_time := 0 } := by
    rw [tick_moving 0 6 _ rfl]
    unfold movingStep
    rw [if_pos (by norm_num [MOTION_THRESHOLD]), if_pos (by norm_num [TIME_THRESHOLD])]
  rw [e2]
  have e3 : tick 0 (s.last_ai_call + MIN_AI_INTERVAL)
      ({ s with state := Phase.STEADY, steady_captured := false, last_motion_time := 0 }) =
      steadyBody (s.last_ai_call + MIN_AI_INTERVAL)
        ({ s with state := Phase.STEADY, steady_captured := false, last_motion_time := 0 }) := by
    rw [tick_steady _ _ _ rfl]
    apply steadyStep_eq_body_of_captured
    unfold steadyBody
    rw [if_neg (by simpa using hq), if_neg (by simp), if_neg (by simp), if_pos (by simpa using hidx)]
  rw [e3]
  unfold steadyBody
  rw [if_neg (by simpa using hq), if_neg (by simp), if_neg (by simp), if_pos (by simpa using hidx)]

/-- One step of any kind keeps the quota lock set and, while it is set,
launches nothing. -/
lemma applyEv_quota_launches (hk : Bool) (e : Ev) (s : SessionState)
    (h : s.quota_exhausted = true) :
    (applyEv hk e s).quota_exhausted = true ∧ (applyEv hk e s).launches = s.launches := by
  cases e with
  | tick m t =>
    exact ⟨(tick_quota m t s).trans h, tick_launches_of_quota m t s h⟩
  | reset t =>
    exact ⟨(reset_fields t s).2.2.2.2.1.trans h, (reset_fields t s).2.2.2.2.2.2.2.2.1⟩
  | deliver env =>
    unfold applyEv
    split_ifs with h0
    · exact ⟨h, rfl⟩
    · refine ⟨?_, (deliver_fields hk env s).1⟩
      rw [(deliver_fields hk env s).2.2.2.2.2.2.2.2, h]
      rfl

/-! ## Claim theorems -/

/-- C1: the claim that at most one Verifier call is ever in flight fails on
the code: `sD2` is a reachable state (launch at t = 20, reset during
ANALYZING at t = 22, stillness from t = 28, cooldown elapsed at t = 40)
holding two undelivered verification threads at once. -/
theorem C1_counterexample :
    Reach true sD2 ∧ sD2.inFlight = 2 ∧ sD2.state = Phase.ANALYZING :=
  ⟨reach_sD2, by decide, by decide⟩

/-- C1 (amended): provided the reset command is never issued while a
verification thread is in flight, at most one thread is ever in flight; a
tick launches a thread only from phase STEADY with `eventConsumed` false
(moving to ANALYZING), and neither the reset command nor an outcome delivery
ever launches one. -/
theorem C1_single_flight :
    (∀ (hk : Bool) (s : SessionState), ReachNR hk s → s.inFlight ≤ 1) ∧
    (∀ (m t : Nat) (s : SessionState), (tick m t s).launches ≠ s.launches →
       s.state = Phase.STEADY ∧ s.steady_captured = false ∧
       (tick m t s).inFlight = s.inFlight + 1 ∧ (tick m t s).state = Phase.ANALYZING) ∧
    (∀ (t : Nat) (s : SessionState),
       (resetCmd t s).launches = s.launches ∧ (resetCmd t s).inFlight = s.inFlight) ∧
    (∀ (hk : Bool) (env : VerifierEnv) (s : SessionState),
       (deliverOutcome hk env s).launches = s.launches) := by
  refine ⟨?_, ?_, ?_, ?_⟩
  · intro hk s h
    exact (reachNR_single_flight h).1
  · intro m t s h
    rcases tick_launch_char m t s h with ⟨h1, h2, h3, h4, h5, heq⟩
    refine ⟨h1, h3, ?_, ?_⟩ <;> rw [heq]
  · intro t s
    exact ⟨(reset_fields t s).2.2.2.2.2.2.2.2.1, (reset_fields t s).2.2.2.2.2.2.2.1⟩
  · intro hk env s
    exact (deliver_fields hk env s).1

/-- C1 witness: the single-flight bound evaluated on the concrete no-reset
execution that launches the first thread at t = 20. -/
theorem C1_single_flight_w : sA.inFlight ≤ 1 :=
  C1_single_flight.1 true sA
    (ReachNR.tick 0 20 (ReachNR.tick 0 6 (ReachNR.init 0)))

/-- C2: once `quota_exhausted` is set it survives every further step and no
further thread is ever launched; `deliverOutcome` sets it exactly on the
QuotaExhausted failure, which carries the error-status outcome of
src/main.py lines 138-141; ticks and the reset command never change it. -/
theorem C2_quota_lock :
    (∀ (hk : Bool) (s : SessionState) (evs : List Ev), s.quota_exhausted = true →
       (runEvs hk evs s).quota_exhausted = true ∧
       (runEvs hk evs s).launches = s.launches) ∧
    (∀ (env : VerifierEnv) (s : SessionState),
       ((deliverOutcome true env s).quota_exhausted = true ↔
         (s.quota_exhausted = true ∨ env = VerifierEnv.quotaExhausted))) ∧
    (∀ s : SessionState,
       (deliverOutcome true VerifierEnv.quotaExhausted s).feedback_data =
         some { status := "error", confidence := none,
                feedback := "Daily quota exhausted. Try tomorrow." }) ∧
    (∀ (m t : Nat) (s : SessionState), (tick m t s).quota_exhausted = s.quota_exhausted) ∧
    (∀ (t : Nat) (s : SessionState), (resetCmd t s).quota_exhausted = s.quota_exhausted) := by
  refine ⟨?_, ?_, ?_, tick_quota, ?_⟩
  · intro hk s evs h
    induction evs generalizing s with
    | nil => exact ⟨h, rfl⟩
    | cons e tl ih =>
      have hstep := applyEv_quota_launches hk e s h
      have htl := ih (applyEv hk e s) hstep.1
      exact ⟨htl.1, htl.2.trans hstep.2⟩
  · intro env s
    cases env <;> simp [deliverOutcome, analyze_image]
  · intro s
    rfl
  · intro t s
    exact (reset_fields t s).2.2.2.2.1

/-- C2 witness: starting from the reachable quota-locked state `sQ`, a later
steady event (tick at 99, reset at 100, long stillness tick at 120) leaves
the lock set and launches nothing. -/
theorem C2_quota_lock_w :
    (runEvs true [Ev.tick 0 99, Ev.reset 100, Ev.tick 0 120] sQ).quota_exhausted = true ∧
    (runEvs true [Ev.tick 0 99, Ev.reset 100, Ev.tick 0 120] sQ).launches = sQ.launches :=
  C2_quota_lock.1 true sQ [Ev.tick 0 99, Ev.reset 100, Ev.tick 0 120] (by decide)

/-- C3: two parts of the claim fail on the code.  The reachable state
`sSteadyDone` (STEADY, all steps complete) is consumed by the tick at t = 60
setting `steady_captured` with no thread launched (the Complete! branch, not
a Verifier call), and the reset command does not clear `steady_captured`:
`sRst`, obtained by pressing reset in `sA`, still carries it set. -/
theorem C3_counterexample :
    Reach true sComplete ∧
    sSteadyDone.steady_captured = false ∧ sSteadyDone.state = Phase.STEADY ∧
    sComplete = tick 0 60 sSteadyDone ∧ sComplete.steady_captured = true ∧
    sComplete.launches = sSteadyDone.launches ∧ sComplete.inFlight = 0 ∧
    Reach true sRst ∧ sRst = resetCmd 22 sA ∧ sRst.steady_captured = true :=
  ⟨reach_sComplete, by decide, by decide, rfl, by decide, by decide, by decide,
   reach_sRst, rfl, by decide⟩

/-- C3 (amended): `eventConsumed` flips to true only by a tick taken in phase
STEADY — the tick that either launches a Verifier call (moving to ANALYZING)
or, when no steps remain, posts the Complete! outcome (moving to FEEDBACK);
it flips back to false only by the MOVING → STEADY transition that starts a
new steady event; the reset command leaves it untouched. -/
theorem C3_eventConsumed_discipline :
    (∀ (hk : Bool) (e : Ev) (s : SessionState),
       (applyEv hk e s).steady_captured = true → s.steady_captured = false →
       ∃ m t, e = Ev.tick m t ∧ s.state = Phase.STEADY ∧
         ((applyEv hk e s).state = Phase.ANALYZING ∨
          ((applyEv hk e s).state = Phase.FEEDBACK ∧
           (applyEv hk e s).feedback_data =
             some { status := "correct", confidence := none, feedback := "Complete!" }))) ∧
    (∀ (hk : Bool) (e : Ev) (s : SessionState),
       (applyEv hk e s).steady_captured = false → s.steady_captured = true →
       ∃ m t, e = Ev.tick m t ∧ s.state = Phase.MOVING ∧
         (applyEv hk e s).state = Phase.STEADY) ∧
    (∀ (t : Nat) (s : SessionState), (resetCmd t s).steady_captured = s.steady_captured) := by
  refine ⟨?_, ?_, ?_⟩
  · intro hk e s hpost hpre
    cases e with
    | tick m t =>
      simp only [applyEv] at hpost ⊢
      refine ⟨m, t, rfl, ?_⟩
      cases hs : s.state with
      | MOVING =>
        exfalso
        rw [tick_moving m t s hs] at hpost
        rcases movingStep_cases m t s with h | h | h <;> rw [h] at hpost <;>
          simp [hpre] at hpost
      | STEADY =>
        refine ⟨rfl, ?_⟩
        rw [tick_steady m t s hs] at hpost ⊢
        rcases steadyBody_cases t s with hb | ⟨hq, hc, hcool, hbr⟩
        · exfalso
          rcases steadyStep_of_body_eq m t s hb with he | ⟨he, -, -⟩ <;>
            rw [he] at hpost <;> simp [hpre] at hpost
        · rcases hbr with ⟨hlt, hb⟩ | ⟨hge, hb⟩
          · left
            rw [steadyStep_eq_body_of_captured m t s (by rw [hb]), hb]
          · right
            rw [steadyStep_eq_body_of_captured m t s (by rw [hb]), hb]
            exact ⟨rfl, rfl⟩
      | ANALYZING =>
        exfalso
        rw [tick_analyzing m t s hs, hpre] at hpost
        exact Bool.noConfusion hpost
      | FEEDBACK =>
        exfalso
        rw [tick_feedback m t s hs, (feedbackStep_fields m t s).2.2.2.2.1, hpre] at hpost
        exact Bool.noConfusion hpost
    | reset t =>
      exfalso
      simp only [applyEv] at hpost
      rw [(reset_fields t s).2.2.2.1, hpre] at hpost
      exact Bool.noConfusion hpost
    | deliver env =>
      exfalso
      simp only [applyEv] at hpost
      split_ifs at hpost with h0
      · rw [hpre] at hpost; exact Bool.noConfusion hpost
      · rw [(deliver_fields hk env s).2.2.1, hpre] at hpost
        exact Bool.noConfusion hpost
  · intro hk e s hpost hpre
    cases e with
    | tick m t =>
      simp only [applyEv] at hpost ⊢
      refine ⟨m, t, rfl, ?_⟩
      cases hs : s.state with
      | MOVING =>
        refine ⟨rfl, ?_⟩
        rw [tick_moving m t s hs] at hpost ⊢
        rcases movingStep_cases m t s with h | h | h
        · rw [h]
        · exfalso; rw [h, hpre] at hpost; exact Bool.noConfusion hpost
        · exfalso; rw [h] at hpost; simp [hpre] at hpost
      | STEADY =>
        exfalso
        rw [tick_steady m t s hs] at hpost
        rcases steadyBody_cases t s with hb | ⟨hq, hc, hcool, hbr⟩
        · rcases steadyStep_of_body_eq m t s hb with he | ⟨he, hcap, -⟩
          · rw [he, hpre] at hpost; exact Bool.noConfusion hpost
          · rw [hcap] at hpre; exact Bool.noConfusion hpre
        · rw [hc] at hpre; exact Bool.noConfusion hpre
      | ANALYZING =>
        exfalso
        rw [tick_analyzing m t s hs, hpre] at hpost
        exact Bool.noConfusion hpost
      | FEEDBACK =>
        exfalso
        rw [tick_feedback m t s hs, (feedbackStep_fields m t s).2.2.2.2.1, hpre] at hpost
        exact Bool.noConfusion hpost
    | reset t =>
      exfalso
      simp only [applyEv] at hpost
      rw [(reset_fields t s).2.2.2.1, hpre] at hpost
      exact Bool.noConfusion hpost
    | deliver env =>
      exfalso
      simp only [applyEv] at hpost
      split_ifs at hpost with h0
      · rw [hpre] at hpost; exact Bool.noConfusion hpost
      · rw [(deliver_fields hk env s).2.2.1, hpre] at hpost
        exact Bool.noConfusion hpost
  · intro t s
    exact (reset_fields t s).2.2.2.1

/-- C3 witness: the flip to true evaluated on the concrete launch tick at
t = 20 from the reachable STEADY state `s6`. -/
theorem C3_eventConsumed_discipline_w :
    ∃ m t, (Ev.tick 0 20 : Ev) = Ev.tick m t ∧ s6.state = Phase.STEADY ∧
      ((applyEv true (Ev.tick 0 20) s6).state = Phase.ANALYZING ∨
       ((applyEv true (Ev.tick 0 20) s6).state = Phase.FEEDBACK ∧
        (applyEv true (Ev.tick 0 20) s6).feedback_data =
          some { status := "correct", confidence := none, feedback := "Complete!" })) :=
  C3_eventConsumed_discipline.1 true (Ev.tick 0 20) s6 (by decide) (by decide)

/-- C4: the reset command does not clear `eventConsumed`: pressing reset in
the reachable ANALYZING state `sA` (whose `steady_captured` is set) yields a
MOVING state whose `steady_captured` is still true, contradicting the claimed
clear-on-reset side effect. -/
theorem C4_counterexample :
    Reach true sRst ∧ sRst = resetCmd 22 sA ∧ sA.steady_captured = true ∧
    sRst.steady_captured = true ∧ sRst.state = Phase.MOVING :=
  ⟨reach_sRst, rfl, by decide, by decide, by decide⟩

/-- C4 (amended): the reset command transitions any state to MOVING with
`lastOutcome = none` and `lastMotionTimestamp = now`, but leaves
`eventConsumed` unchanged (it is cleared only on the next MOVING → STEADY
transition); `quotaLocked`, `lastVerifierCallTimestamp`, the step index and
the success timer are also untouched. -/
theorem C4_reset_effects :
    ∀ (t : Nat) (s : SessionState),
      (resetCmd t s).state = Phase.MOVING ∧
      (resetCmd t s).feedback_data = none ∧
      (resetCmd t s).last_motion_time = t ∧
      (resetCmd t s).steady_captured = s.steady_captured ∧
      (resetCmd t s).quota_exhausted = s.quota_exhausted ∧
      (resetCmd t s).last_ai_call = s.last_ai_call ∧
      (resetCmd t s).current_step_idx = s.current_step_idx ∧
      (resetCmd t s).success_start = s.success_start := by
  intro t s
  exact ⟨(reset_fields t s).1, (reset_fields t s).2.1, (reset_fields t s).2.2.1,
         (reset_fields t s).2.2.2.1, (reset_fields t s).2.2.2.2.1,
         (reset_fields t s).2.2.2.2.2.2.1, (reset_fields t s).2.2.2.2.2.1,
         (reset_fields t s).2.2.2.2.2.2.2.2.2⟩

/-- C5: a response whose extracted JSON fails to parse does not produce an
error-status outcome: delivered from the reachable ANALYZING state `sA`, the
JSON-decode failure writes the partial-status outcome of src/main.py
lines 161-165. -/
theorem C5_counterexample :
    Reach true (deliverOutcome true VerifierEnv.jsonDecodeError sA) ∧
    (deliverOutcome true VerifierEnv.jsonDecodeError sA).feedback_data =
      some { status := "partial", confidence := some 0,
             feedback := "Could not understand AI response. Try again." } ∧
    ("partial" : String) ≠ "error" :=
  ⟨reach_sJson, rfl, by decide⟩

/-- C5 (amended): every non-quota Verifier failure leaves the quota lock
unchanged; transport-level failures, a falsy response, an encode failure and
a response with no JSON at all deliver an error-status outcome, while a
response whose extracted JSON fails to parse delivers a partial-status
outcome; in every case the session stays eligible: when the quota is
unlocked and steps remain, a motion tick followed by stillness and an
elapsed cooldown launches a fresh verification thread. -/
theorem C5_nonquota_failures :
    ∀ (s : SessionState) (env : VerifierEnv), isNonQuotaFailure env = true →
      (deliverOutcome true env s).quota_exhausted = s.quota_exhausted ∧
      ((analyze_image true env).1.status = "error" ∨ env = VerifierEnv.jsonDecodeError) ∧
      (env = VerifierEnv.jsonDecodeError → (analyze_image true env).1.status = "partial") ∧
      (s.quota_exhausted = false → s.current_step_idx < STEPS.length →
        (tick 0 (s.last_ai_call + MIN_AI_INTERVAL)
           (tick 0 6 (tick 5001 0 (deliverOutcome true env s)))).launches
          = s.launches + 1) := by
  intro s env hfail
  have hquota : (deliverOutcome true env s).quota_exhausted = s.quota_exhausted := by
    rw [(deliver_fields true env s).2.2.2.2.2.2.2.2]
    cases env <;> simp [analyze_image] <;> simp [isNonQuotaFailure] at hfail
  refine ⟨hquota, ?_, ?_, ?_⟩
  · cases env <;> simp [analyze_image] <;> simp [isNonQuotaFailure] at hfail
  · intro he
    subst he
    rfl
  · intro hq hidx
    have hres := relaunch_after_error (deliverOutcome true env s) (analyze_image true env).1
      ?_ ?_ ?_ ?_ ?_ ?_
    · rw [(deliver_fields true env s).2.1, (deliver_fields true env s).1] at hres
      exact hres
    · cases env <;> simp [analyze_image] <;> simp [isNonQuotaFailure] at hfail
    · cases env <;> simp [analyze_image] <;> simp [isNonQuotaFailure] at hfail
    · rw [hquota]; exact hq
    · rw [(deliver_fields true env s).2.2.2.1]; exact hidx
    · exact (deliver_fields true env s).2.2.2.2.1
    · exact (deliver_fields true env s).2.2.2.2.2.2.2.1

/-- C5 witness: the falsy-response failure delivered into a fresh session
leaves the quota unlocked and the session relaunches after motion,
stillness and the cooldown. -/
theorem C5_nonquota_failures_w :
    (tick 0 ((initState 7).last_ai_call + MIN_AI_INTERVAL)
       (tick 0 6 (tick 5001 0 (deliverOutcome true VerifierEnv.noResponse (initState 7))))).launches
      = (initState 7).launches + 1 :=
  (C5_nonquota_failures (initState 7) VerifierEnv.noResponse (by decide)).2.2.2
    (by decide) (by decide)

/-- C6: the success display is not always 3 seconds long.  In the reachable
state `sFb2` a correct outcome has just been delivered (the thread launched
at t = 40), but the stale success timer from the interrupted display at
t = 21 survived the intervening reset, so the very next tick, at t = 41,
already advances the step and leaves FEEDBACK — at most one second of
display instead of the claimed three. -/
theorem C6_counterexample :
    Reach true sFb2 ∧ sFb2.state = Phase.FEEDBACK ∧ sFb2.feedback_data = some cOk ∧
    sFb2.last_ai_call = 40 ∧ sFb2.success_start = some 21 ∧
    sFb2.current_step_idx = 0 ∧
    (tick 0 41 sFb2).current_step_idx = 1 ∧ (tick 0 41 sFb2).state = Phase.MOVING :=
  ⟨reach_sFb2, by decide, by decide, by decide, by decide, by decide, by decide, by decide⟩

/-- C6 (amended): a correct outcome delivered while ANALYZING transitions to
FEEDBACK with the step index unchanged; provided the success timer is not
left over from an earlier interrupted success display, the first FEEDBACK
tick starts the timer, every tick at most 3 seconds after the timer start
holds in FEEDBACK, and the first tick strictly more than 3 seconds after the
timer start advances `currentStepIndex` by one, returns to MOVING, clears
`lastOutcome` and sets `lastMotionTimestamp` to now. -/
theorem C6_success_path :
    (∀ (hk : Bool) (env : VerifierEnv) (s : SessionState),
       s.state = Phase.ANALYZING → (analyze_image hk env).1.status = "correct" →
       (deliverOutcome hk env s).state = Phase.FEEDBACK ∧
       (deliverOutcome hk env s).feedback_data = some (analyze_image hk env).1 ∧
       (deliverOutcome hk env s).success_start = s.success_start ∧
       (deliverOutcome hk env s).current_step_idx = s.current_step_idx) ∧
    (∀ (m t : Nat) (u : SessionState) (o : Outcome),
       u.state = Phase.FEEDBACK → u.feedback_data = some o → o.status = "correct" →
       u.success_start = none →
       tick m t u = { u with success_start := some t }) ∧
    (∀ (m t t0 : Nat) (u : SessionState) (o : Outcome),
       u.state = Phase.FEEDBACK → u.feedback_data = some o → o.status = "correct" →
       u.success_start = some t0 →
       (¬ SUCCESS_DISPLAY < t - t0 → tick m t u = { u with success_start := some t0 }) ∧
       (SUCCESS_DISPLAY < t - t0 →
         tick m t u =
           { u with current_step_idx := u.current_step_idx + 1
                    state := Phase.MOVING
                    feedback_data := none
                    last_motion_time := t
                    success_start := none })) := by
  refine ⟨?_, ?_, ?_⟩
  · intro hk env s hph hco
    exact ⟨(deliver_fields hk env s).2.2.2.2.1, (deliver_fields hk env s).2.2.2.2.2.2.2.1,
           (deliver_fields hk env s).2.2.2.2.2.2.1, (deliver_fields hk env s).2.2.2.1⟩
  · intro m t u o hu hfd hco hss
    rw [tick_feedback m t u hu]
    unfold feedbackStep
    rw [hfd]
    dsimp only []
    rw [if_pos hco, hss]
    simp only [Option.getD_none]
    rw [if_neg (by rw [Nat.sub_self]; exact Nat.not_lt_zero _)]
  · intro m t t0 u o hu hfd hco hss
    constructor <;> intro hcond <;> rw [tick_feedback m t u hu] <;>
      unfold feedbackStep <;> rw [hfd] <;> dsimp only [] <;>
      rw [if_pos hco, hss] <;> simp only [Option.getD_some]
    · rw [if_neg hcond]
    · rw [if_pos hcond]

/-- C6 witness: the timer-start tick evaluated on the reachable state `sFb1`
holding the first correct outcome. -/
theorem C6_success_path_w :
    tick 0 21 sFb1 = { sFb1 with success_start := some 21 } :=
  C6_success_path.2.1 0 21 sFb1 cOk (by decide) rfl rfl rfl

/-- C7: during the cooldown window a STEADY tick launches nothing, keeps the
call timestamp, and — while the frame stays below the motion threshold —
holds the whole state; a tick that launches can only fire once the full
MIN_AI_INTERVAL has passed since `last_ai_call`, and it restamps
`last_ai_call` to now; `last_ai_call` changes exactly on launches, and
neither the reset command nor an outcome delivery touches it.  Hence two
steady instants less than MIN_AI_INTERVAL apart admit at most one launch. -/
theorem C7_cooldown :
    (∀ (m t : Nat) (s : SessionState),
       s.state = Phase.STEADY → t - s.last_ai_call < MIN_AI_INTERVAL →
       (tick m t s).launches = s.launches ∧ (tick m t s).inFlight = s.inFlight ∧
       (tick m t s).last_ai_call = s.last_ai_call ∧
       (m ≤ MOTION_THRESHOLD → tick m t s = s)) ∧
    (∀ (m t : Nat) (s : SessionState), (tick m t s).launches ≠ s.launches →
       s.last_ai_call + MIN_AI_INTERVAL ≤ t ∧ (tick m t s).last_ai_call = t ∧
       (tick m t s).launches = s.launches + 1) ∧
    (∀ (m t : Nat) (s : SessionState), (tick m t s).last_ai_call ≠ s.last_ai_call →
       (tick m t s).launches = s.launches + 1 ∧ (tick m t s).last_ai_call = t) ∧
    (∀ (t : Nat) (s : SessionState), (resetCmd t s).last_ai_call = s.last_ai_call) ∧
    (∀ (hk : Bool) (env : VerifierEnv) (s : SessionState),
       (deliverOutcome hk env s).last_ai_call = s.last_ai_call) := by
  refine ⟨tick_cooldown_hold, ?_, ?_, ?_, ?_⟩
  · intro m t s h
    rcases tick_launch_char m t s h with ⟨h1, h2, h3, hcool, h5, heq⟩
    refine ⟨?_, ?_, ?_⟩
    · simp only [MIN_AI_INTERVAL] at hcool ⊢
      omega
    · rw [heq]
    · rw [heq]
  · intro m t s h
    by_cases hl : (tick m t s).launches = s.launches
    · exact absurd (tick_la_unchanged m t s hl) h
    · rcases tick_launch_char m t s hl with ⟨-, -, -, -, -, heq⟩
      exact ⟨by rw [heq], by rw [heq]⟩
  · intro t s
    exact (reset_fields t s).2.2.2.2.2.2.1
  · intro hk env s
    exact (deliver_fields hk env s).2.1

/-- C7 witness: the cooldown hold evaluated on the reachable STEADY state
`s6` at t = 10, only ten seconds after the (initial) call timestamp. -/
theorem C7_cooldown_w :
    (tick 0 10 s6).launches = s6.launches ∧ (tick 0 10 s6).inFlight = s6.inFlight ∧
    (tick 0 10 s6).last_ai_call = s6.last_ai_call ∧
    (0 ≤ MOTION_THRESHOLD → tick 0 10 s6 = s6) :=
  C7_cooldown.1 0 10 s6 (by decide) (by decide)

/-- C8: an empty frame does not merely spoil one tick: the scorer raises and
nothing in the `run` loop catches it, so the iteration ends the session
fatally instead of continuing with the next frame. -/
theorem C8_counterexample :
    runIteration none (initState 0) (FrameInput.frame []) 5 =
      TickOutcome.fatal "cv2.error: empty frame" := rfl

/-- C8 (amended): on malformed (empty) input the scorer fails with an error
rather than silently returning zero, but the failure is fatal to the whole
session: the tick loop has no handler, so the error terminates it; a
non-empty frame scores normally and the loop continues; end of stream ends
the session gracefully. -/
theorem C8_invalid_frame :
    (∀ p : Option (List Nat), get_motion_score [] p = Except.error "cv2.error: empty frame") ∧
    (∀ (p : Option (List Nat)) (s : SessionState) (n : Nat),
       runIteration p s (FrameInput.frame []) n = TickOutcome.fatal "cv2.error: empty frame") ∧
    (∀ (p : Option (List Nat)) (s : SessionState) (n : Nat) (f : List Nat), f ≠ [] →
       ∃ (m : Nat) (p2 : List Nat), get_motion_score f p = Except.ok (m, p2) ∧
         runIteration p s (FrameInput.frame f) n = TickOutcome.next (some p2) (tick m n s)) ∧
    (∀ (p : Option (List Nat)) (s : SessionState) (n : Nat),
       runIteration p s FrameInput.endOfStream n = TickOutcome.sessionEnded) := by
  refine ⟨fun p => rfl, fun p s n => rfl, ?_, fun p s n => rfl⟩
  intro p s n f hf
  have hne : f.isEmpty = false := by
    cases f with
    | nil => exact absurd rfl hf
    | cons a l => rfl
  cases p with
  | none =>
    refine ⟨100000, f, ?_, ?_⟩ <;>
      simp [get_motion_score, cvtColor_blur, runIteration, hne]
  | some q =>
    refine ⟨frameDeltaThresh q f, f, ?_, ?_⟩ <;>
      simp [get_motion_score, cvtColor_blur, runIteration, hne]

/-- C8 witness: a well-formed one-pixel first frame scores the sentinel and
the loop continues. -/
theorem C8_invalid_frame_w :
    ∃ (m : Nat) (p2 : List Nat), get_motion_score [30] none = Except.ok (m, p2) ∧
      runIteration none (initState 0) (FrameInput.frame [30]) 7 =
        TickOutcome.next (some p2) (tick m 7 (initState 0)) :=
  C8_invalid_frame.2.2.1 none (initState 0) 7 [30] (by decide)

/-- C9: with no API key configured, `analyze_image` ignores the external
world entirely (never contacting the Verifier) and always delivers the fixed
simulated-success outcome, moving the session to FEEDBACK and leaving the
quota lock alone — so every steady-event verification succeeds
unconditionally.  (The two-second `time.sleep` of line 95 is real time and
outside the model.) -/
theorem C9_no_api_key :
    ∀ (env : VerifierEnv) (s : SessionState),
      analyze_image false env =
        ({ status := "correct", confidence := some 1,
           feedback := "Simulated Success (No API Key)" }, false) ∧
      (deliverOutcome false env s).state = Phase.FEEDBACK ∧
      (deliverOutcome false env s).feedback_data =
        some { status := "correct", confidence := some 1,
               feedback := "Simulated Success (No API Key)" } ∧
      (deliverOutcome false env s).quota_exhausted = s.quota_exhausted := by
  intro env s
  refine ⟨rfl, (deliver_fields false env s).2.2.2.2.1, rfl, ?_⟩
  rw [(deliver_fields false env s).2.2.2.2.2.2.2.2]
  simp [analyze_image]

/-- C10: the step index never decreases under any step (the reset command in
particular preserves it); once every configured step is complete, a consumed
steady event posts the correct-status Complete! outcome without launching,
whose success path increments the index again — concretely, the reachable
state `sBeyond` has index 3, one past the two configured steps. -/
theorem C10_step_monotone :
    (∀ (hk : Bool) (e : Ev) (s : SessionState),
       s.current_step_idx ≤ (applyEv hk e s).current_step_idx) ∧
    (∀ (t : Nat) (s : SessionState),
       (resetCmd t s).current_step_idx = s.current_step_idx) ∧
    (∀ (m t : Nat) (s : SessionState),
       s.state = Phase.STEADY → s.quota_exhausted = false → s.steady_captured = false →
       ¬ t - s.last_ai_call < MIN_AI_INTERVAL → STEPS.length ≤ s.current_step_idx →
       tick m t s =
         { s with steady_captured := true
                  state := Phase.FEEDBACK
                  feedback_data :=
                    some { status := "correct", confidence := none, feedback := "Complete!" } }) ∧
    (Reach true sBeyond ∧ sBeyond.current_step_idx = STEPS.length + 1 ∧
     sComplete.feedback_data =
       some { status := "correct", confidence := none, feedback := "Complete!" }) := by
  refine ⟨?_, ?_, ?_, reach_sBeyond, by decide, by decide⟩
  · intro hk e s
    cases e with
    | tick m t => exact tick_idx_mono m t s
    | reset t => exact le_of_eq ((reset_fields t s).2.2.2.2.2.1).symm
    | deliver env =>
      simp only [applyEv]
      split_ifs with h0
      · exact le_refl _
      · exact le_of_eq ((deliver_fields hk env s).2.2.2.1).symm
  · intro t s
    exact (reset_fields t s).2.2.2.2.2.1
  · intro m t s hs hq hc hcool hlen
    rw [tick_steady m t s hs]
    have hb : steadyBody t s =
        { s with steady_captured := true
                 state := Phase.FEEDBACK
                 feedback_data :=
                   some { status := "correct", confidence := none, feedback := "Complete!" } } := by
      unfold steadyBody
      rw [if_neg (by simp [hq]), if_neg (by simp [hc]), if_neg hcool, if_neg (by omega)]
    rw [steadyStep_eq_body_of_captured m t s (by rw [hb]), hb]

/-- C10 witness: the Complete! transition evaluated on the reachable STEADY
state `sSteadyDone` with both steps already done. -/
theorem C10_step_monotone_w :
    tick 0 60 sSteadyDone =
      { sSteadyDone with
          steady_captured := true
          state := Phase.FEEDBACK
          feedback_data :=
            some { status := "correct", confidence := none, feedback := "Complete!" } } :=
  C10_step_monotone.2.2.1 0 60 sSteadyDone (by decide) (by decide) (by decide)
    (by decide) (by decide)

end SparkEye
